import Mathlib

/-!
Verification development for the k8s-web-terminal repository.

Shallow embedding of the Terminal Session Bridge, the Kubernetes service
(pod-existence cache and exec-stream creation with its retry loop) and the
File Transfer Bridge, translated from:
  - app/handlers/websocket_handler.py
  - app/services/k8s_service.py
  - app/services/upload_service.py

Python strings are modelled as `List Char`; event-loop timestamps as `Nat`;
fallible operations return `Option`; the network and the remote stream are
modelled as explicit oracles (lists of per-attempt outcomes) consumed by the
loops that poll them.
-/

namespace K8sTerm

/-- The reserved heartbeat byte `"\x00"` checked in `_write_to_pod`. -/
def nulChar : Char := Char.ofNat 0

/-! ## Terminal output formatting (`WebSocketHandler._format_terminal_data`) -/

/-- Python `s.endswith(suffix)`: the last `suffix.length` characters of `s`
equal `suffix`. -/
def pyEndswith (s suffix : List Char) : Bool :=
  decide (s.reverse.take suffix.length = suffix.reverse)

/-- Python `data.replace("\n", "\r\n")`: every `'\n'` character is replaced by
the two characters `'\r'`, `'\n'`, including a `'\n'` already preceded by
`'\r'`. -/
def pyReplaceLF (s : List Char) : List Char :=
  s.flatMap fun c => if c = '\n' then ['\r', '\n'] else [c]

/-- `WebSocketHandler._format_terminal_data`:
```python
if not data.endswith("\r\n") and data.endswith("\n"):
    return data.replace("\n", "\r\n")
return data
``` -/
def formatTerminalData (data : List Char) : List Char :=
  if !(pyEndswith data ['\r', '\n']) && pyEndswith data ['\n'] then
    pyReplaceLF data
  else
    data

/-- Modelled from the spec's words (for comparison with `formatTerminalData`,
which is translated from the source): rewrite each bare `'\n'` that is not
already preceded by `'\r'` into `'\r'`, `'\n'` and leave canonical
`'\r'`-`'\n'` pairs unchanged. -/
def specNormalize : List Char → List Char
  | [] => []
  | [c] => if c = '\n' then ['\r', '\n'] else [c]
  | c1 :: c2 :: rest =>
    if c1 = '\r' ∧ c2 = '\n' then '\r' :: '\n' :: specNormalize rest
    else if c1 = '\n' then '\r' :: '\n' :: specNormalize (c2 :: rest)
    else c1 :: specNormalize (c2 :: rest)

/-! ## Upload filename validation (`FileUploadService.validate_file`) -/

/-- POSIX `os.path.basename`: the part of the path after the last `'/'`. -/
def osBasename (p : List Char) : List Char :=
  (p.reverse.takeWhile (fun c => c ≠ '/')).reverse

/-- `FileUploadService.validate_file`: reject an empty filename or one
containing `'/'` or `'\\'` (raising `FileValidationError`, modelled as
`none`), then normalize to the basename and reject again if that is empty;
otherwise return the safe filename. -/
def validate_file (original : List Char) : Option (List Char) :=
  if original = [] ∨ '/' ∈ original ∨ '\\' ∈ original then none
  else
    let safe := osBasename original
    if safe = [] then none else some safe

/-- The fixed upload directory `self.target_dir = "/tmp"`. -/
def target_dir : List Char := "/tmp".toList

/-- `os.path.join(self.target_dir, safe_filename)` for a relative second
component. -/
def podFilePath (safe : List Char) : List Char := target_dir ++ '/' :: safe

/-- The entry names of the tar archive built by `upload_file`:
`tar.add(tmp_file_path, arcname=safe_filename)` adds exactly one entry whose
archived name is the validated `safe_filename`. -/
def uploadArchiveEntries (safe : List Char) : List (List Char) := [safe]

/-! ## Client-message classification
(`WebSocketHandler._process_websocket_message`, `_handle_resize_message`,
`_handle_text_message`)

`json.loads` is Python standard-library code, modelled abstractly: a message's
parse result is an `Option JValue` input (`none` = `json.JSONDecodeError`). -/

/-- A parsed JSON value. -/
inductive JValue where
  | jnull
  | jbool (b : Bool)
  | jnum (n : Int)
  | jstr (s : List Char)
  | jarr (xs : List JValue)
  | jobj (fields : List (List Char × JValue))

/-- Python `dict.get(key)`: `None` both when the key is absent and when the
stored value is JSON `null`. -/
def pyGet (fields : List (List Char × JValue)) (key : List Char) :
    Option JValue :=
  match fields.lookup key with
  | some JValue.jnull => none
  | v => v

/-- Python `int(v)` on a JSON value: an integer is itself, a boolean is 0/1;
any other operand raises (modelled as `none`).  `_handle_resize_message`
applies it to the `cols`/`rows` values. -/
def pyInt : JValue → Option Int
  | JValue.jnum n => some n
  | JValue.jbool b => some (if b then 1 else 0)
  | _ => none

/-- `ws_client.RESIZE_CHANNEL` of the kubernetes stream client. -/
def RESIZE_CHANNEL : Nat := 4

/-- The payload `json.dumps({"Width": int(cols), "Height": int(rows)})`
written to the resize control channel, modelled structurally. -/
structure ResizePayload where
  width : Int
  height : Int
deriving DecidableEq, Repr

/-- The writes one client message causes on the remote exec stream:
`resp.write_channel(RESIZE_CHANNEL, payload)` calls and `resp.write_stdin`
calls, each list in call order. -/
structure MsgTrace where
  control : List (Nat × ResizePayload)
  stdin : List (List Char)
deriving DecidableEq, Repr

/-- `WebSocketHandler._handle_resize_message`: read `cols` and `rows` with
`dict.get`; if both are present, build the resize payload (Python `int(...)`
may raise, modelled by `none`) and, if the stream is open, perform exactly one
control-channel write; if either is missing, do nothing. -/
def handleResizeMessage (fields : List (List Char × JValue))
    (respOpen : Bool) : Option (List (Nat × ResizePayload)) :=
  match pyGet fields "cols".toList, pyGet fields "rows".toList with
  | some colsV, some rowsV =>
    match pyInt colsV, pyInt rowsV with
    | some c, some r =>
      some (if respOpen then [(RESIZE_CHANNEL, ⟨c, r⟩)] else [])
    | _, _ => none
  | _, _ => some []

/-- Python `str.splitlines` line-break characters. -/
def isLineBreak (c : Char) : Bool :=
  c = '\n' ∨ c = '\r' ∨ c = Char.ofNat 0x0b ∨ c = Char.ofNat 0x0c ∨
  c = Char.ofNat 0x1c ∨ c = Char.ofNat 0x1d ∨ c = Char.ofNat 0x1e ∨
  c = Char.ofNat 0x85 ∨ c = Char.ofNat 0x2028 ∨ c = Char.ofNat 0x2029

/-- Helper for `pySplitlines`: `acc` holds the characters of the current line
in reverse.  A trailing line terminator does not produce a final empty
line. -/
def pySplitlinesAux : List Char → List Char → List (List Char)
  | [], acc => if acc.isEmpty then [] else [acc.reverse]
  | '\r' :: '\n' :: t, acc => acc.reverse :: pySplitlinesAux t []
  | c :: t, acc =>
    if isLineBreak c then acc.reverse :: pySplitlinesAux t []
    else pySplitlinesAux t (c :: acc)

/-- Python `data.splitlines()`. -/
def pySplitlines (s : List Char) : List (List Char) := pySplitlinesAux s []

/-- `WebSocketHandler._handle_text_message`, returning the sequence of
`resp.write_stdin` payloads: a payload longer than 100 characters or
containing `'\n'` is split with `splitlines` and each line is written followed
by a separate `"\n"` write for every line but the last (the per-iteration
`resp.is_open()` check stops the loop at once when the stream is closed); a
short single-line payload is written directly as one write. -/
def handleTextMessage (data : List Char) (respOpen : Bool) :
    List (List Char) :=
  if data.length > 100 ∨ '\n' ∈ data then
    if respOpen then writeLines (pySplitlines data) else []
  else
    if respOpen then [data] else []
where
  /-- The `for i, line in enumerate(lines)` body: write the line, then a
  newline when `i < len(lines) - 1`. -/
  writeLines : List (List Char) → List (List Char)
    | [] => []
    | [l] => [l]
    | l :: rest => l :: ['\n'] :: writeLines rest

/-- `WebSocketHandler._process_websocket_message`: when the message parses to
a JSON dict declaring `type == "resize"`, hand it to the resize handler (no
stdin write); any other parse result — including a parse failure — is handled
as raw terminal data.  `none` models an exception escaping the handler. -/
def processWebsocketMessage (parsed : Option JValue) (data : List Char)
    (respOpen : Bool) : Option MsgTrace :=
  match parsed with
  | some (JValue.jobj fields) =>
    match pyGet fields "type".toList with
    | some (JValue.jstr s) =>
      if s = "resize".toList then
        (handleResizeMessage fields respOpen).map fun ctrl => ⟨ctrl, []⟩
      else
        some ⟨[], handleTextMessage data respOpen⟩
    | _ => some ⟨[], handleTextMessage data respOpen⟩
  | _ => some ⟨[], handleTextMessage data respOpen⟩

/-! ## Pod-existence cache and retry loop (`KubernetesService.check_pod_exists`)

`self._pod_cache` is a dict keyed by `f"{namespace}:{podname}"`; dict
assignment is modelled by prepending with first-match `List.lookup`.  The
control-plane API is modelled by an oracle: the list of outcomes of successive
`read_namespaced_pod` calls. -/

/-- `self._cache_ttl = 300` seconds. -/
def cacheTTL : Nat := 300

/-- `cache_key = f"{namespace}:{podname}"`. -/
def cacheKey (ns pod : List Char) : List Char :=
  ns ++ ':' :: pod

/-- The pod cache: key ↦ `(exists, checkedAt)`. -/
def PodCache : Type := List (List Char × (Bool × Nat))

/-- Outcome of one `read_namespaced_pod` call. -/
inductive ApiResult where
  | ok
  /-- `kubernetes.client.exceptions.ApiException` with this HTTP status. -/
  | apiErr (status : Nat)
  /-- Any other exception; `sslFnf` is true when its text contains both
  `"SSLError"` and `"FileNotFoundError"`. -/
  | exc (sslFnf : Bool)
deriving DecidableEq, Repr

/-- Result of `check_pod_exists`. -/
inductive CheckOutcome where
  | ok (podExists : Bool)
  /-- `K8sConnectionError` raised. -/
  | k8sError
deriving DecidableEq, Repr

/-- What one `check_pod_exists` call did: its outcome, the number of
`read_namespaced_pod` network calls, the number of `reinitialize` calls, and
the cache afterwards. -/
structure CheckRes where
  outcome : CheckOutcome
  attempts : Nat
  reinits : Nat
  cache : PodCache

/-- The `while True` retry loop of `check_pod_exists` (after the cache was
consulted): a successful read caches `(True, current_time)`; a 404 caches
`(False, current_time)`; another `ApiException` raises; another exception
whose text carries both SSL markers triggers, while `retry_count <
max_retries`, one `reinitialize` (whose failure raises) and a retry; anything
else raises.  `current_time` was taken before the loop, so `now` is fixed. -/
def checkLoop (key : List Char) (now : Nat) (cache : PodCache)
    (reinitOk : Bool) (retryCount maxRetries : Nat) :
    List ApiResult → CheckRes
  | [] => ⟨CheckOutcome.k8sError, 0, 0, cache⟩
  | a :: rest =>
    match a with
    | ApiResult.ok => ⟨CheckOutcome.ok true, 1, 0, (key, (true, now)) :: cache⟩
    | ApiResult.apiErr status =>
      if status = 404 then
        ⟨CheckOutcome.ok false, 1, 0, (key, (false, now)) :: cache⟩
      else ⟨CheckOutcome.k8sError, 1, 0, cache⟩
    | ApiResult.exc sslFnf =>
      if sslFnf ∧ retryCount < maxRetries then
        if reinitOk then
          let r := checkLoop key now cache reinitOk (retryCount + 1)
            maxRetries rest
          ⟨r.outcome, r.attempts + 1, r.reinits + 1, r.cache⟩
        else ⟨CheckOutcome.k8sError, 1, 1, cache⟩
      else ⟨CheckOutcome.k8sError, 1, 0, cache⟩

/-- `KubernetesService.check_pod_exists` (client assumed initialized): a cache
entry younger than the TTL is returned with no network call; otherwise the
retry loop runs with `max_retries = 1`. -/
def check_pod_exists (cache : PodCache) (ns pod : List Char)
    (now : Nat) (oracle : List ApiResult) (reinitOk : Bool) : CheckRes :=
  match cache.lookup (cacheKey ns pod) with
  | some (b, t) =>
    if now - t < cacheTTL then ⟨CheckOutcome.ok b, 0, 0, cache⟩
    else checkLoop (cacheKey ns pod) now cache reinitOk 0 1 oracle
  | none => checkLoop (cacheKey ns pod) now cache reinitOk 0 1 oracle

/-! ## Exec-stream creation (`KubernetesService.create_exec_stream`) -/

/-- Outcome of one iteration of the `create_exec_stream` retry loop before
its exception handling: the existence check may report the pod missing
(`PodNotFoundError`, re-raised as is); the existence check or the
`kubernetes.stream.stream` call may raise any other exception, with `sslFnf`
true when its text carries both SSL markers; or the stream opens. -/
inductive ExecAttempt where
  | podMissing
  | streamOk
  | attemptExc (sslFnf : Bool)
deriving DecidableEq, Repr

/-- Result of `create_exec_stream`. -/
inductive ExecOutcome where
  | streamOpened
  | podNotFound
  /-- `PodConnectionError` raised. -/
  | podConnError
  /-- `K8sConnectionError` raised (reinitialization itself failed). -/
  | k8sConnError
deriving DecidableEq, Repr

/-- What one `create_exec_stream` call did. -/
structure ExecRes where
  outcome : ExecOutcome
  attempts : Nat
  reinits : Nat
deriving DecidableEq, Repr

/-- The `while True` retry loop of `create_exec_stream`: `PodNotFoundError`
is re-raised; a stream is returned on success; any other exception whose text
carries both SSL markers triggers, while `retry_count < max_retries`, one
`reinitialize` (whose failure raises `K8sConnectionError`) and a retry;
anything else raises `PodConnectionError`. -/
def createExecLoop (reinitOk : Bool) (retryCount maxRetries : Nat) :
    List ExecAttempt → ExecRes
  | [] => ⟨ExecOutcome.podConnError, 0, 0⟩
  | a :: rest =>
    match a with
    | ExecAttempt.podMissing => ⟨ExecOutcome.podNotFound, 1, 0⟩
    | ExecAttempt.streamOk => ⟨ExecOutcome.streamOpened, 1, 0⟩
    | ExecAttempt.attemptExc sslFnf =>
      if sslFnf ∧ retryCount < maxRetries then
        if reinitOk then
          let r := createExecLoop reinitOk (retryCount + 1) maxRetries rest
          ⟨r.outcome, r.attempts + 1, r.reinits + 1⟩
        else ⟨ExecOutcome.k8sConnError, 1, 1⟩
      else ⟨ExecOutcome.podConnError, 1, 0⟩

/-- `KubernetesService.create_exec_stream` (client assumed initialized): the
retry loop with `max_retries = 1`. -/
def create_exec_stream (oracle : List ExecAttempt) (reinitOk : Bool) :
    ExecRes :=
  createExecLoop reinitOk 0 1 oracle

/-! ## Session status and pump loops (`WebSocketHandler`) -/

/-- `app.models.ConnectionStatus` (float timestamps modelled as `Nat`). -/
structure ConnectionStatus where
  is_active : Bool
  last_activity_time : Nat
  connection_start_time : Nat
  idle_timeout : Nat
  connection_timeout : Nat
deriving DecidableEq, Repr

/-- `WebSocketHandler._check_connection_timeout`: `False` (dead) when the time
since the last activity exceeds the idle timeout or the time since the
connection start exceeds the total timeout. -/
def check_connection_timeout (st : ConnectionStatus) (now : Nat) : Bool :=
  if now - st.last_activity_time > st.idle_timeout then false
  else if now - st.connection_start_time > st.connection_timeout then false
  else true

/-- `WebSocketHandler._send_heartbeat`: when the stream is open, one
`resp.write_stdin("")` call; the session status is not an argument, so it
cannot be touched.  Returns the stdin writes performed. -/
def send_heartbeat (respOpen : Bool) : List (List Char) :=
  if respOpen then [([] : List Char)] else []

/-- What one iteration of the remote→client pump body (`_read_from_pod`) did:
the status afterwards, the texts sent to the client websocket, the stdin
writes (keepalive heartbeats), and whether the loop continues. -/
structure ReadIterRes where
  status : ConnectionStatus
  sentToClient : List (List Char)
  stdinWrites : List (List Char)
  continues : Bool
deriving DecidableEq, Repr

/-- Does `if resp.peek_std*(): data = resp.read_std*(); if data:` see data?
`none` models a false peek, `some []` a peek whose read drains nothing. -/
def hasData : Option (List Char) → Bool
  | some d => !d.isEmpty
  | none => false

/-- One execution of the loop body of `WebSocketHandler._read_from_pod`,
translated statement by statement.  Inputs: the drained stdout and stderr
data, whether the websocket is still `CONNECTED`, whether the 30-second
status check and the 15-second heartbeat are due this cycle, the current
event-loop time, and whether the stream is open.  Forwarded data passes
through `formatTerminalData`; a disconnected client breaks the loop; a failed
timeout check sets `is_active := False` and breaks; the heartbeat writes an
empty payload to remote stdin.  `last_activity_time` appears nowhere on the
left of an assignment. -/
def readFromPodIteration (st : ConnectionStatus)
    (stdoutData stderrData : Option (List Char)) (clientConnected : Bool)
    (doCheck doHeartbeat : Bool) (now : Nat) (respOpen : Bool) :
    ReadIterRes :=
  if hasData stdoutData ∧ ¬ clientConnected then ⟨st, [], [], false⟩
  else
    let sentOut := if hasData stdoutData then
      [formatTerminalData (stdoutData.getD [])] else []
    if hasData stderrData ∧ ¬ clientConnected then ⟨st, sentOut, [], false⟩
    else
      let sent := sentOut ++ (if hasData stderrData then
        [formatTerminalData (stderrData.getD [])] else [])
      if doCheck ∧ ¬ check_connection_timeout st now then
        ⟨{ st with is_active := false }, sent, [], false⟩
      else
        let hb := if doHeartbeat then send_heartbeat respOpen else []
        ⟨st, sent, hb, true⟩

/-- What `asyncio.wait_for(websocket.receive_text(), timeout=30)` produced in
one iteration of `_write_to_pod`. -/
inductive ClientEvent where
  /-- A client text frame (paired with its JSON parse result). -/
  | message (data : List Char) (parsed : Option JValue)
  /-- `asyncio.TimeoutError`. -/
  | timeout
  /-- `WebSocketDisconnect`. -/
  | disconnect

/-- What one iteration of the client→remote pump body (`_write_to_pod`)
did. -/
structure WriteIterRes where
  status : ConnectionStatus
  stdinWrites : List (List Char)
  controlWrites : List (Nat × ResizePayload)
  continues : Bool
deriving DecidableEq, Repr

/-- One execution of the loop body of `WebSocketHandler._write_to_pod`,
translated statement by statement.  A received `"\x00"` is discarded
(`continue`) before the activity update; any other message first sets
`last_activity_time` to the current time (`nowRecv`), then breaks if the
stream is closed, then is processed by `_process_websocket_message` (an
exception there is logged and, not being a connection error, the loop sleeps
and continues), then the timeout check runs at `nowCheck`; an
`asyncio.TimeoutError` only re-runs the timeout and liveness checks; a
`WebSocketDisconnect` breaks. -/
def writeToPodIteration (st : ConnectionStatus) (ev : ClientEvent)
    (nowRecv nowCheck : Nat) (respOpen clientConnected : Bool) :
    WriteIterRes :=
  match ev with
  | ClientEvent.message data parsed =>
    if data = [nulChar] then ⟨st, [], [], true⟩
    else
      let st' := { st with last_activity_time := nowRecv }
      if ¬ respOpen then ⟨st', [], [], false⟩
      else
        match processWebsocketMessage parsed data respOpen with
        | some tr =>
          ⟨st', tr.stdin, tr.control, check_connection_timeout st' nowCheck⟩
        | none => ⟨st', [], [], true⟩
  | ClientEvent.timeout =>
    if ¬ check_connection_timeout st nowCheck then ⟨st, [], [], false⟩
    else if ¬ respOpen ∨ ¬ clientConnected then ⟨st, [], [], false⟩
    else ⟨st, [], [], true⟩
  | ClientEvent.disconnect => ⟨st, [], [], false⟩

/-! ## Connection setup (`WebSocketHandler.handle_connection`)

`create_exec_stream` is an `async def` (and its `log_async_function_call`
decorator wraps it in another `async def`), but `handle_connection` calls it
without `await`: `resp = self.k8s_service.create_exec_stream(connection_info)`
merely constructs a coroutine object.  None of the body — the pod-existence
check, the stream opening, their exceptions — runs during the connecting
phase, the statement itself cannot raise, and `resp` is the coroutine object
itself. -/

/-- The object bound to `resp` and handed to both pump tasks. -/
inductive RespKind where
  /-- The coroutine object returned by calling the `async def` without
  `await`; not an exec stream, its body never started. -/
  | coroutineObject
  /-- An exec stream in open (`true`) or closed state — what `resp` would
  have to be for the pumps to pump; the connecting phase of the source never
  produces one. -/
  | execStream (isOpen : Bool)
deriving DecidableEq, Repr

/-- `resp.is_open()`, the first expression the `_read_from_pod` loop guard
evaluates: an exec stream reports its state; on the coroutine object the
attribute lookup raises `AttributeError` (`none`). -/
def respIsOpen : RespKind → Option Bool
  | RespKind.coroutineObject => none
  | RespKind.execStream b => some b

/-- The session state reached once the connecting phase of
`handle_connection` is over. -/
inductive SessionPhase where
  /-- A `ConnectionStatus` with `is_active = True` was created and
  `_handle_communication` started both pump tasks against `resp`. -/
  | active
  /-- The connection was closed without ever pumping. -/
  | closed
deriving DecidableEq, Repr

/-- What the connecting phase did. -/
structure ConnectRes where
  phase : SessionPhase
  /-- Diagnostic texts sent to the client. -/
  diagnostics : Nat
  /-- The `resp` handed to the pump tasks (`none` when none was created). -/
  resp : Option RespKind
deriving DecidableEq, Repr

/-- The connecting phase of `WebSocketHandler.handle_connection`, after
`websocket.accept()` succeeded: if `is_connected()` is false, one error text
is sent and the socket closed; otherwise the un-`await`ed call to
`create_exec_stream` binds `resp` to a coroutine object — running no
existence check, opening no stream, raising nothing — a `ConnectionStatus`
with `is_active = True` is created, and `_handle_communication` starts both
pump tasks against that coroutine object.  The `except` handlers that would
send a failure diagnostic are unreachable from this statement. -/
def handle_connection (k8sConnected : Bool) : ConnectRes :=
  if ¬ k8sConnected then ⟨SessionPhase.closed, 1, none⟩
  else ⟨SessionPhase.active, 0, some RespKind.coroutineObject⟩

/-! ## Upload remote phase (`FileUploadService.upload_file`) -/

/-- Result of the remote-execution phase of an upload. -/
inductive UploadOutcome where
  | success
  /-- The `FileUploadResponse(error=..., status_code=500)` carrying the tar
  return code. -/
  | failed (rc : Int)
deriving DecidableEq, Repr

/-- What the remote-execution phase did: warnings logged for the mkdir step
and the final outcome. -/
structure UploadPhaseRes where
  mkdirWarnings : Nat
  outcome : UploadOutcome
deriving DecidableEq, Repr

/-- The remote-execution phase of `FileUploadService.upload_file`, as a
function of the two remote exit codes: the mkdir stream is drained and
closed, and a non-zero `resp_mkdir.returncode` is logged as a warning only;
then the tar archive is streamed and the tar stream drained and closed, and
`resp_cp.returncode != 0` yields the error response carrying that return
code, while zero yields success. -/
def uploadRemotePhase (mkdirRc tarRc : Int) : UploadPhaseRes :=
  let w := if mkdirRc ≠ 0 then 1 else 0
  if tarRc ≠ 0 then ⟨w, UploadOutcome.failed tarRc⟩
  else ⟨w, UploadOutcome.success⟩

/-! ## Theorems -/

/-- C8: upload filename validation fails with `InvalidFilename` exactly for
an empty filename, one containing a path separator (`'/'` or `'\\'`), or one
whose basename is empty after normalization; `"../etc/passwd"` is rejected,
`"report.txt"` is accepted and archived under exactly that name. -/
theorem c8_filename_validation :
    validate_file "../etc/passwd".toList = none ∧
    validate_file "report.txt".toList = some "report.txt".toList ∧
    uploadArchiveEntries "report.txt".toList = ["report.txt".toList] ∧
    ∀ f : List Char, validate_file f = none ↔
      (f = [] ∨ '/' ∈ f ∨ '\\' ∈ f ∨ osBasename f = []) := by
  refine ⟨by decide, by decide, rfl, fun f => ?_⟩
  unfold validate_file
  by_cases h1 : f = [] ∨ '/' ∈ f ∨ '\\' ∈ f
  · simp [h1]
    try tauto
  · simp only [h1, if_false]
    by_cases h2 : osBasename f = []
    · simp [h2]
      try tauto
    · simp [h2]
      try tauto

/-- C10: the filename `".."` passes validation unchanged — it is non-empty,
contains no path separator, and equals its own non-empty basename — so the
upload archives the scratch file under the tar entry name `".."`, which joins
with the fixed upload directory to its parent. -/
theorem c10_dotdot_accepted :
    validate_file "..".toList = some "..".toList ∧
    ("..".toList ≠ ([] : List Char) ∧ '/' ∉ "..".toList ∧
      '\\' ∉ "..".toList) ∧
    osBasename "..".toList = "..".toList ∧
    uploadArchiveEntries "..".toList = ["..".toList] ∧
    podFilePath "..".toList = "/tmp/..".toList := by
  refine ⟨by decide, by decide, by decide, rfl, by decide⟩

/-- C9: the upload result is determined solely by the tar-extraction exit
code — a non-zero mkdir exit code is logged as a warning but never changes
the outcome; tar exit 0 yields success and a non-zero tar exit yields the
failure response carrying that exit code. -/
theorem c9_upload_exit_code : ∀ mkdirRc tarRc : Int,
    (uploadRemotePhase mkdirRc tarRc).outcome =
      (uploadRemotePhase 0 tarRc).outcome ∧
    (mkdirRc ≠ 0 → (uploadRemotePhase mkdirRc tarRc).mkdirWarnings = 1) ∧
    (tarRc = 0 →
      (uploadRemotePhase mkdirRc tarRc).outcome = UploadOutcome.success) ∧
    (tarRc ≠ 0 →
      (uploadRemotePhase mkdirRc tarRc).outcome =
        UploadOutcome.failed tarRc) := by
  intro mkdirRc tarRc
  unfold uploadRemotePhase
  by_cases ht : tarRc = 0 <;> by_cases hm : mkdirRc = 0 <;> simp [ht, hm]

/-- Witness for C9 at mkdirRc = 3, tarRc = 2. -/
theorem c9_upload_exit_code_witness :
    (uploadRemotePhase 3 2).outcome = UploadOutcome.failed 2 ∧
    (uploadRemotePhase 3 2).mkdirWarnings = 1 :=
  ⟨(c9_upload_exit_code 3 2).2.2.2 (by decide),
   (c9_upload_exit_code 3 2).2.1 (by decide)⟩

/-- C4: a client message parsing to `{"type":"resize","cols":120,"rows":40}`
causes exactly one control-channel write with payload
`{"Width":120,"Height":40}` and zero stdin writes on the open stream; a
message that fails to parse as JSON is handled as raw terminal data. -/
theorem c4_resize_roundtrip :
    (∀ data : List Char,
      processWebsocketMessage
        (some (JValue.jobj
          [("type".toList, JValue.jstr "resize".toList),
           ("cols".toList, JValue.jnum 120),
           ("rows".toList, JValue.jnum 40)])) data true =
        some ⟨[(RESIZE_CHANNEL, ⟨120, 40⟩)], []⟩) ∧
    (∀ (data : List Char) (respOpen : Bool),
      processWebsocketMessage none data respOpen =
        some ⟨[], handleTextMessage data respOpen⟩) :=
  ⟨fun _ => rfl, fun _ _ => rfl⟩

/-- On a string without carriage returns, the spec's normalization coincides
with Python's global `replace("\n", "\r\n")`. -/
theorem specNormalize_eq_pyReplaceLF :
    ∀ s : List Char, '\r' ∉ s → specNormalize s = pyReplaceLF s
  | [], _ => rfl
  | [c], h => by
    have hc : c ≠ '\r' := fun e => h (by simp [e])
    by_cases hn : c = '\n' <;> simp [specNormalize, pyReplaceLF, hn]
  | c1 :: c2 :: rest, h => by
    have h1 : c1 ≠ '\r' := fun e => h (by simp [e])
    have h2 : '\r' ∉ c2 :: rest := fun m => h (List.mem_cons_of_mem _ m)
    have ih := specNormalize_eq_pyReplaceLF (c2 :: rest) h2
    have hpair : ¬ (c1 = '\r' ∧ c2 = '\n') := fun ⟨e, _⟩ => h1 e
    by_cases hn : c1 = '\n' <;>
      simp [specNormalize, pyReplaceLF, hpair, hn] at ih ⊢ <;>
      simp [ih]

/-- C3 counterexample: `_format_terminal_data` is not the normalization the
claim describes.  On `"a\nb"` the bare `'\n'` is forwarded unchanged (the
data does not end with `'\n'`), and on `"a\r\nb\n"` the already-canonical
`"\r\n"` is rewritten to `"\r\r\n"`. -/
theorem c3_format_counterexample :
    formatTerminalData ['a', '\n', 'b'] ≠ specNormalize ['a', '\n', 'b'] ∧
    formatTerminalData ['a', '\n', 'b'] = ['a', '\n', 'b'] ∧
    formatTerminalData ['a', '\r', '\n', 'b', '\n'] =
      ['a', '\r', '\r', '\n', 'b', '\r', '\n'] := by
  refine ⟨by decide, by decide, by decide⟩

/-- C3 (amended): the rewrite runs only when the chunk ends with `'\n'` but
not with `"\r\n"`, and then replaces every `'\n'` — including one already
preceded by `'\r'` — with `"\r\n"`; all other chunks are forwarded
unchanged.  In particular, on a chunk without carriage returns that ends in
`'\n'`, the result agrees with the spec's normalization. -/
theorem c3_format_amended (s : List Char) :
    ('\r' ∉ s → pyEndswith s ['\n'] = true →
      formatTerminalData s = specNormalize s) ∧
    (pyEndswith s ['\n'] = false → formatTerminalData s = s) ∧
    (pyEndswith s ['\r', '\n'] = true → formatTerminalData s = s) ∧
    (pyEndswith s ['\r', '\n'] = false → pyEndswith s ['\n'] = true →
      formatTerminalData s = pyReplaceLF s) := by
  refine ⟨fun hr hn => ?_, fun h => ?_, fun h => ?_, fun h1 h2 => ?_⟩
  · have hcrlf : pyEndswith s ['\r', '\n'] = false := by
      unfold pyEndswith
      simp only [decide_eq_false_iff_not]
      intro htake
      have hmem : '\r' ∈ List.take (['\r', '\n'] : List Char).length
          s.reverse := by
        rw [htake]; decide
      exact hr (List.mem_reverse.mp (List.mem_of_mem_take hmem))
    rw [specNormalize_eq_pyReplaceLF s hr]
    unfold formatTerminalData
    rw [hcrlf, hn]
    rfl
  · unfold formatTerminalData
    rw [h]
    simp
  · unfold formatTerminalData
    rw [h]
    simp
  · unfold formatTerminalData
    rw [h1, h2]
    rfl

/-- Witness for C3 (amended) at the chunk `"ab\n"`. -/
theorem c3_format_amended_witness :
    formatTerminalData ['a', 'b', '\n'] = specNormalize ['a', 'b', '\n'] :=
  (c3_format_amended ['a', 'b', '\n']).1 (by decide) (by decide)

/-- The bulk-paste write loop produces the lines separated by single newline
writes. -/
theorem writeLines_eq_intersperse :
    ∀ l : List (List Char),
      handleTextMessage.writeLines l = List.intersperse ['\n'] l
  | [] => rfl
  | [_] => rfl
  | a :: b :: rest => by
    rw [List.intersperse_cons_cons, ← writeLines_eq_intersperse (b :: rest)]
    rfl

/-- C5: a payload longer than 100 characters or containing an embedded
newline is split on line boundaries and written as each line followed by a
separate newline write for every line but the last (the lines interspersed
with single `"\n"` writes); the payload `"echo a\necho b\n"` yields the
stdin writes `"echo a"`, `"\n"`, `"echo b"` with no trailing newline, and a
short single-line payload is written directly as one write. -/
theorem c5_multiline_paste :
    handleTextMessage "echo a\necho b\n".toList true =
      ["echo a".toList, ['\n'], "echo b".toList] ∧
    (∀ data : List Char, '\n' ∈ data → handleTextMessage data true =
      List.intersperse ['\n'] (pySplitlines data)) ∧
    (∀ data : List Char, data.length > 100 → handleTextMessage data true =
      List.intersperse ['\n'] (pySplitlines data)) ∧
    (∀ data : List Char, ¬ data.length > 100 → '\n' ∉ data →
      handleTextMessage data true = [data]) := by
  refine ⟨by decide, fun data h => ?_, fun data h => ?_, fun data h1 h2 => ?_⟩
  · rw [handleTextMessage, if_pos (Or.inr h), if_pos rfl]
    exact writeLines_eq_intersperse _
  · rw [handleTextMessage, if_pos (Or.inl h), if_pos rfl]
    exact writeLines_eq_intersperse _
  · rw [handleTextMessage, if_neg (by tauto), if_pos rfl]

/-- Witness for C5 at the payload `"a\nb"`. -/
theorem c5_multiline_paste_witness :
    handleTextMessage ['a', '\n', 'b'] true =
      List.intersperse ['\n'] (pySplitlines ['a', '\n', 'b']) :=
  c5_multiline_paste.2.1 ['a', '\n', 'b'] (by decide)

/-- Whenever the `check_pod_exists` retry loop returns a boolean, it has hit
the network at least once and has stored `(result, now)` under the key. -/
theorem checkLoop_ok_caches :
    ∀ (oracle : List ApiResult) (key : List Char) (now : Nat)
      (cache : PodCache) (reinitOk : Bool) (rc mr : Nat) (b : Bool),
      (checkLoop key now cache reinitOk rc mr oracle).outcome =
        CheckOutcome.ok b →
      1 ≤ (checkLoop key now cache reinitOk rc mr oracle).attempts ∧
      (checkLoop key now cache reinitOk rc mr oracle).cache.lookup key =
        some (b, now)
  | [], _, _, _, _, _, _, _ => by intro h; exact absurd h (by simp [checkLoop])
  | a :: rest, key, now, cache, reinitOk, rc, mr, b => by
    intro h
    match a with
    | ApiResult.ok =>
      simp only [checkLoop, CheckOutcome.ok.injEq] at h ⊢
      subst h
      simp [List.lookup]
    | ApiResult.apiErr status =>
      by_cases h404 : status = 404
      · subst h404
        simp [checkLoop] at h ⊢
        simp [List.lookup, h]
      · exfalso
        simp [checkLoop, h404] at h
    | ApiResult.exc sslFnf =>
      by_cases hretry : sslFnf ∧ rc < mr
      · by_cases hre : reinitOk
        · have ih := checkLoop_ok_caches rest key now cache reinitOk (rc + 1)
            mr b
          simp only [checkLoop, if_pos hretry, if_pos hre] at h ⊢
          exact ⟨Nat.le_succ_of_le (ih h).1, (ih h).2⟩
        · simp [checkLoop, if_pos hretry, hre] at h
      · simp [checkLoop, if_neg hretry] at h

/-- C6: an existence check with a cache entry younger than the 300-second
TTL returns the cached boolean with no network call and an unchanged cache;
on a miss or an entry at least TTL old, whenever a boolean is returned the
check has performed at least one fresh lookup and has stored
`(result, now)` in the cache before returning it. -/
theorem c6_cache_behavior :
    ∀ (cache : PodCache) (ns pod : List Char) (now : Nat)
      (oracle : List ApiResult) (reinitOk : Bool),
      (∀ (b : Bool) (t : Nat),
        cache.lookup (cacheKey ns pod) = some (b, t) → now - t < cacheTTL →
        check_pod_exists cache ns pod now oracle reinitOk =
          ⟨CheckOutcome.ok b, 0, 0, cache⟩) ∧
      (∀ b : Bool,
        (cache.lookup (cacheKey ns pod) = none ∨
          ∃ bt : Bool × Nat, cache.lookup (cacheKey ns pod) = some bt ∧
            cacheTTL ≤ now - bt.2) →
        (check_pod_exists cache ns pod now oracle reinitOk).outcome =
          CheckOutcome.ok b →
        1 ≤ (check_pod_exists cache ns pod now oracle reinitOk).attempts ∧
        (check_pod_exists cache ns pod now oracle reinitOk).cache.lookup
          (cacheKey ns pod) = some (b, now)) := by
  intro cache ns pod now oracle reinitOk
  constructor
  · intro b t hl ht
    unfold check_pod_exists
    rw [hl]
    simp [ht]
  · intro b hmiss
    have hloop : check_pod_exists cache ns pod now oracle reinitOk =
        checkLoop (cacheKey ns pod) now cache reinitOk 0 1 oracle := by
      unfold check_pod_exists
      rcases hmiss with h | ⟨⟨b', t'⟩, hl, ht⟩
      · rw [h]
      · rw [hl]
        have : ¬ now - t' < cacheTTL := Nat.not_lt.mpr ht
        simp [this]
    rw [hloop]
    exact checkLoop_ok_caches oracle (cacheKey ns pod) now cache reinitOk 0 1 b

/-- Witness for C6: a fresh hit at `now = 10` on an entry checked at `t = 0`
is served from the cache with no network call. -/
theorem c6_cache_behavior_witness :
    check_pod_exists [("a:b".toList, (true, 0))] "a".toList "b".toList 10
      [ApiResult.ok] true =
      ⟨CheckOutcome.ok true, 0, 0, [("a:b".toList, (true, 0))]⟩ :=
  (c6_cache_behavior [("a:b".toList, (true, 0))] "a".toList "b".toList 10
    [ApiResult.ok] true).1 true 0 (by decide) (by decide)

/-- Once `retry_count = max_retries = 1`, the `create_exec_stream` loop
performs at most one more attempt and never reinitializes again. -/
theorem createExecLoop_rc1 (oracle : List ExecAttempt) (reinitOk : Bool) :
    (createExecLoop reinitOk 1 1 oracle).attempts ≤ 1 ∧
    (createExecLoop reinitOk 1 1 oracle).reinits = 0 := by
  cases oracle with
  | nil => simp [createExecLoop]
  | cons a rest => cases a <;> simp [createExecLoop]

/-- Once `retry_count = max_retries = 1`, the `check_pod_exists` loop
performs at most one more attempt and never reinitializes again. -/
theorem checkLoop_rc1 (oracle : List ApiResult) (key : List Char) (now : Nat)
    (cache : PodCache) (reinitOk : Bool) :
    (checkLoop key now cache reinitOk 1 1 oracle).attempts ≤ 1 ∧
    (checkLoop key now cache reinitOk 1 1 oracle).reinits = 0 := by
  cases oracle with
  | nil => simp [checkLoop]
  | cons a rest =>
    cases a with
    | ok => simp [checkLoop]
    | apiErr status => by_cases h : status = 404 <;> simp [checkLoop, h]
    | exc ssl => simp [checkLoop]

/-- A whole `create_exec_stream` call makes at most two attempts and at most
one reinitialization. -/
theorem createExecLoop_bounds (oracle : List ExecAttempt) (reinitOk : Bool) :
    (create_exec_stream oracle reinitOk).attempts ≤ 2 ∧
    (create_exec_stream oracle reinitOk).reinits ≤ 1 := by
  unfold create_exec_stream
  cases oracle with
  | nil => simp [createExecLoop]
  | cons a rest =>
    cases a with
    | podMissing => simp [createExecLoop]
    | streamOk => simp [createExecLoop]
    | attemptExc ssl =>
      cases ssl with
      | false => simp [createExecLoop]
      | true =>
        by_cases hre : reinitOk
        · obtain ⟨h1, h2⟩ := createExecLoop_rc1 rest true
          simp [createExecLoop, hre]
          omega
        · simp [createExecLoop, hre]

/-- A whole post-cache `check_pod_exists` call makes at most two attempts and
at most one reinitialization. -/
theorem checkLoop_bounds (oracle : List ApiResult) (key : List Char)
    (now : Nat) (cache : PodCache) (reinitOk : Bool) :
    (checkLoop key now cache reinitOk 0 1 oracle).attempts ≤ 2 ∧
    (checkLoop key now cache reinitOk 0 1 oracle).reinits ≤ 1 := by
  cases oracle with
  | nil => simp [checkLoop]
  | cons a rest =>
    cases a with
    | ok => simp [checkLoop]
    | apiErr status => by_cases h : status = 404 <;> simp [checkLoop, h]
    | exc ssl =>
      cases ssl with
      | false => simp [checkLoop]
      | true =>
        by_cases hre : reinitOk
        · obtain ⟨h1, h2⟩ := checkLoop_rc1 rest key now cache true
          simp [checkLoop, hre]
          omega
        · simp [checkLoop, hre]

/-- C7: on a transport error carrying both SSL-certificate markers, stream
creation and the existence check reinitialize at most once and retry exactly
once — the second attempt's result is final; a failure of a different kind,
a failed reinitialization, or a second failure is surfaced immediately as a
connection error; globally at most two attempts and one reinitialization
happen. -/
theorem c7_ssl_retry_policy :
    (∀ (rest : List ExecAttempt) (reinitOk : Bool),
      create_exec_stream (ExecAttempt.attemptExc false :: rest) reinitOk =
        ⟨ExecOutcome.podConnError, 1, 0⟩) ∧
    (∀ rest : List ExecAttempt,
      create_exec_stream (ExecAttempt.attemptExc true :: rest) false =
        ⟨ExecOutcome.k8sConnError, 1, 1⟩) ∧
    (∀ (a : ExecAttempt) (rest : List ExecAttempt),
      create_exec_stream (ExecAttempt.attemptExc true :: a :: rest) true =
        ⟨match a with
          | ExecAttempt.streamOk => ExecOutcome.streamOpened
          | ExecAttempt.podMissing => ExecOutcome.podNotFound
          | ExecAttempt.attemptExc _ => ExecOutcome.podConnError, 2, 1⟩) ∧
    (∀ (oracle : List ExecAttempt) (reinitOk : Bool),
      (create_exec_stream oracle reinitOk).attempts ≤ 2 ∧
      (create_exec_stream oracle reinitOk).reinits ≤ 1) ∧
    (∀ (rest : List ApiResult) (key : List Char) (now : Nat)
      (cache : PodCache) (reinitOk : Bool),
      checkLoop key now cache reinitOk 0 1 (ApiResult.exc false :: rest) =
        ⟨CheckOutcome.k8sError, 1, 0, cache⟩) ∧
    (∀ (rest : List ApiResult) (key : List Char) (now : Nat)
      (cache : PodCache),
      checkLoop key now cache false 0 1 (ApiResult.exc true :: rest) =
        ⟨CheckOutcome.k8sError, 1, 1, cache⟩) ∧
    (∀ (rest : List ApiResult) (key : List Char) (now : Nat)
      (cache : PodCache) (b : Bool),
      checkLoop key now cache true 0 1
          (ApiResult.exc true :: ApiResult.exc b :: rest) =
        ⟨CheckOutcome.k8sError, 2, 1, cache⟩) ∧
    (∀ (rest : List ApiResult) (key : List Char) (now : Nat)
      (cache : PodCache),
      checkLoop key now cache true 0 1
          (ApiResult.exc true :: ApiResult.ok :: rest) =
        ⟨CheckOutcome.ok true, 2, 1, (key, (true, now)) :: cache⟩) ∧
    (∀ (oracle : List ApiResult) (key : List Char) (now : Nat)
      (cache : PodCache) (reinitOk : Bool),
      (checkLoop key now cache reinitOk 0 1 oracle).attempts ≤ 2 ∧
      (checkLoop key now cache reinitOk 0 1 oracle).reinits ≤ 1) := by
  refine ⟨?_, ?_, ?_, createExecLoop_bounds, ?_, ?_, ?_, ?_, checkLoop_bounds⟩
  · intro rest reinitOk
    simp [create_exec_stream, createExecLoop]
  · intro rest
    simp [create_exec_stream, createExecLoop]
  · intro a rest
    cases a <;> simp [create_exec_stream, createExecLoop]
  · intro rest key now cache reinitOk
    simp [checkLoop]
  · intro rest key now cache
    simp [checkLoop]
  · intro rest key now cache b
    simp [checkLoop]
  · intro rest key now cache
    simp [checkLoop]

/-- C1 (code bug at `websocket_handler.py:64`): `create_exec_stream` is
called without `await`, so on every accepted connection with the Kubernetes
client loaded the connecting phase "succeeds" with zero diagnostics and
hands both pump loops the coroutine object — never an opened exec stream, no
existence check run, no connecting-phase failure possible — and the read
pump's first `resp.is_open()` raises `AttributeError`.  The claimed behavior
(ACTIVE with both pumps on the opened stream, or one diagnostic and a direct
CLOSED on failure) cannot occur. -/
theorem c1_unawaited_create_exec_stream :
    handle_connection true =
      ⟨SessionPhase.active, 0, some RespKind.coroutineObject⟩ ∧
    handle_connection false = ⟨SessionPhase.closed, 1, none⟩ ∧
    respIsOpen RespKind.coroutineObject = none :=
  ⟨rfl, rfl, rfl⟩

/-- C2: `last_activity_time` changes only when the client→remote pump
receives a client message other than the reserved heartbeat byte `"\x00"`;
that pump leaves it untouched on a heartbeat byte (discarded whole), on a
receive timeout and on a disconnect, and the remote→client pump — which also
performs the 15-second empty keepalive stdin write — never changes it. -/
theorem c2_last_activity_only_client_input :
    (∀ (st : ConnectionStatus) (o e : Option (List Char))
      (cc dc dh : Bool) (now : Nat) (ro : Bool),
      (readFromPodIteration st o e cc dc dh now ro).status.last_activity_time
        = st.last_activity_time) ∧
    (∀ (st : ConnectionStatus) (parsed : Option JValue) (nR nC : Nat)
      (ro cc : Bool),
      writeToPodIteration st (ClientEvent.message [nulChar] parsed) nR nC
        ro cc = ⟨st, [], [], true⟩) ∧
    (∀ (st : ConnectionStatus) (data : List Char) (parsed : Option JValue)
      (nR nC : Nat) (ro cc : Bool), data ≠ [nulChar] →
      (writeToPodIteration st (ClientEvent.message data parsed) nR nC
        ro cc).status.last_activity_time = nR) ∧
    (∀ (st : ConnectionStatus) (nR nC : Nat) (ro cc : Bool),
      (writeToPodIteration st ClientEvent.timeout nR nC ro cc).status = st) ∧
    (∀ (st : ConnectionStatus) (nR nC : Nat) (ro cc : Bool),
      (writeToPodIteration st ClientEvent.disconnect nR nC ro cc).status
        = st) := by
  refine ⟨?_, ?_, ?_, ?_, ?_⟩
  · intro st o e cc dc dh now ro
    unfold readFromPodIteration
    repeat' split
    all_goals rfl
  · intro st parsed nR nC ro cc
    simp [writeToPodIteration]
  · intro st data parsed nR nC ro cc h
    simp only [writeToPodIteration]
    rw [if_neg h]
    repeat' split
    all_goals rfl
  · intro st nR nC ro cc
    simp only [writeToPodIteration]
    repeat' split
    all_goals rfl
  · intro st nR nC ro cc
    rfl

/-- Witness for C2: the one-character message `"a"` advances
`last_activity_time` to the receive time. -/
theorem c2_last_activity_only_client_input_witness :
    (writeToPodIteration ⟨true, 0, 0, 300, 3600⟩
      (ClientEvent.message ['a'] none) 5 6 true true).status.last_activity_time
      = 5 :=
  c2_last_activity_only_client_input.2.2.1 ⟨true, 0, 0, 300, 3600⟩ ['a'] none
    5 6 true true (by decide)

end K8sTerm
